import Mathlib

/-!
Verification of the diskover socket server (`diskover_socket_server.py`).

The file shallowly embeds the request-handling subsystem:

* `run_command` (source lines 165-280): the command dispatcher, split here
  into `run_command_body` (the `try` body, lines 192-270) and the wrapper
  `run_command` that models the `except ValueError` clause (lines 272-276).
* `socket_thread_handler_step` (source lines 39-101): one iteration of the
  per-connection worker loop, for one received payload.
* `accept_one` / `accept_loop` (source lines 139-151): the acceptor loop
  appending each accepted connection to the global `clientlist` and
  enqueueing it.

Python exceptions are modelled by `PyExc` and `Except`; JSON command
objects are modelled by `Command`, a record of the optional string-valued
fields the dispatcher reads (in the source every consulted field is passed
through `str(...)` or compared against string literals, so string values
are the faithful carrier).  Side effects (spawning the external process,
writing to the task registry, sending reply frames, waiting on the child,
closing the client socket) are recorded as an explicit `Event` trace.
The fresh uuid of line 242 and the child-process outcome of lines 245-265
are inputs (`taskid`, `ProcResult`); socket sends are assumed to succeed.
-/

namespace Diskover

/-- Shared configuration read from `diskover.config`
(source lines 122-123, 177, 194-195). -/
structure Config where
  index : String
  python_path : String
  diskover_path : String
deriving Repr, DecidableEq

/-- Caller defaults from `cliargs` (source lines 183, 189). -/
structure CliArgs where
  batchsize : String
  adaptivebatch : String
deriving Repr, DecidableEq

/-- A decoded JSON command object: the fields `run_command` consults,
each possibly absent (`command_dict[...]` raising `KeyError`). -/
structure Command where
  index : Option String := none
  batchsize : Option String := none
  adaptivebatch : Option String := none
  action : Option String := none
  path : Option String := none
  recursive : Option String := none
  taskid : Option String := none
deriving Repr, DecidableEq

/-- Python exceptions that the modelled code can raise. -/
inductive PyExc where
  | keyError (key : String)
  | valueError
  | typeError
deriving Repr, DecidableEq

/-- Reply frames written to the client socket
(source lines 61, 226, 232, 250, 268, 274). -/
inductive Reply where
  | pong
  | taskkilled
  | unknownAction
  | valueError
  | taskstart (taskid : String)
  | taskfinish (taskid : String) (exitcode : Int) (elapsedtime : String)
deriving Repr, DecidableEq

/-- Observable actions of the dispatcher and handler, in program order.
`spawn argv captureOutput` is the `subprocess.Popen` call of line 245
(`captureOutput` true means stdout/stderr are PIPEd); `insertTask` is the
`socket_tasks[taskid] = process` write of line 248; `waitChild` is the
blocking `process.communicate()` of line 257; `closeConn` is
`clientsock.close()`. -/
inductive Event where
  | genTaskid (taskid : String)
  | spawn (argv : List String) (captureOutput : Bool)
  | insertTask (taskid : String)
  | sendReply (r : Reply)
  | waitChild
  | closeConn
deriving Repr, DecidableEq

/-- The task registry `socket_tasks` (source line 29): a dict from taskid
to process handle, modelled with Python dict assignment semantics
(overwrite in place if the key exists, else append). -/
abbrev Registry : Type := List (String × Nat)

/-- `d[k] = v` on a Python dict. -/
def dict_set (d : Registry) (k : String) (v : Nat) : Registry :=
  if d.any (fun p => p.1 = k) then
    d.map (fun p => if p.1 = k then (k, v) else p)
  else
    d ++ [(k, v)]

/-- Outcome of the spawned child process and the wall-clock bookkeeping
of lines 241-269: the process handle stored in the registry, the exit
code sent in `taskfinish`, and the human-readable elapsed time string
produced by `diskover.get_time`. -/
structure ProcResult where
  handle : Nat
  exitcode : Int
  elapsedtime : String
deriving Repr, DecidableEq

/-- The shared tail of the three spawn variants (source lines 236-270):
append `-a` when the resolved `adaptivebatch` equals `"True"` or
`"true"` (line 237), spawn the process with captured stdout/stderr,
record it in the registry, send `taskstart`, block on the child, send
`taskfinish`. -/
def spawn_and_wait (cmd : List String) (adaptivebatch : String)
    (socket_tasks : Registry) (taskid : String) (proc : ProcResult) :
    Except PyExc (Registry × List Event) :=
  let cmd2 := if adaptivebatch = "True" ∨ adaptivebatch = "true"
              then cmd ++ ["-a"] else cmd
  .ok (dict_set socket_tasks taskid proc.handle,
    [.genTaskid taskid, .spawn cmd2 true, .insertTask taskid,
     .sendReply (.taskstart taskid), .waitChild,
     .sendReply (.taskfinish taskid proc.exitcode proc.elapsedtime)])

/-- The `try` body of `run_command` (source lines 192-270), together with
the field resolution of lines 174-190.  Reading a missing required field
(`command_dict['action']`, `['path']`, `['taskid']`) raises `KeyError`,
which this body does not catch. -/
def run_command_body (command_dict : Command) (cliargs : CliArgs)
    (config : Config) (socket_tasks : Registry) (taskid : String)
    (proc : ProcResult) : Except PyExc (Registry × List Event) :=
  let index := command_dict.index.getD config.index
  let batchsize := command_dict.batchsize.getD cliargs.batchsize
  let adaptivebatch := command_dict.adaptivebatch.getD cliargs.adaptivebatch
  match command_dict.action with
  | none => .error (.keyError "action")
  | some action =>
    if action = "crawl" then
      match command_dict.path with
      | none => .error (.keyError "path")
      | some path =>
        spawn_and_wait
          [config.python_path, "-u", config.diskover_path, "-b", batchsize,
           "-i", index, "-d", path, "-q"]
          adaptivebatch socket_tasks taskid proc
    else if action = "finddupes" then
      spawn_and_wait
        [config.python_path, "-u", config.diskover_path, "-b", batchsize,
         "-i", index, "--finddupes", "-q"]
        adaptivebatch socket_tasks taskid proc
    else if action = "reindex" then
      let recursive := command_dict.recursive.getD "false"
      match command_dict.path with
      | none => .error (.keyError "path")
      | some path =>
        if recursive = "true" then
          spawn_and_wait
            [config.python_path, "-u", config.diskover_path, "-b", batchsize,
             "-i", index, "-d", path, "-R", "-q"]
            adaptivebatch socket_tasks taskid proc
        else
          spawn_and_wait
            [config.python_path, "-u", config.diskover_path, "-b", batchsize,
             "-i", index, "-d", path, "-r", "-q"]
            adaptivebatch socket_tasks taskid proc
    else if action = "kill" then
      match command_dict.taskid with
      | none => .error (.keyError "taskid")
      | some _ => .ok (socket_tasks, [.sendReply .taskkilled])
    else
      .ok (socket_tasks, [.sendReply .unknownAction])

/-- `run_command` (source lines 165-280).  The `except ValueError` clause
of lines 272-276 sends the `value error` reply; note that nothing in the
`try` body raises `ValueError` (missing dict keys raise `KeyError`, which
is not a `ValueError`), so that clause is dead and `KeyError` escapes to
the caller.  The `except socket.error` clause of lines 278-280 is not
modelled because socket sends are assumed to succeed. -/
def run_command (command_dict : Command) (cliargs : CliArgs)
    (config : Config) (socket_tasks : Registry) (taskid : String)
    (proc : ProcResult) : Except PyExc (Registry × List Event) :=
  match run_command_body command_dict cliargs config socket_tasks taskid proc with
  | .error .valueError => .ok (socket_tasks, [.sendReply .valueError])
  | r => r

/-- How one iteration of the worker loop ends: `done` reaches
`q.task_done()` and loops for the next connection; `crashed e` is an
exception escaping the `try` of line 40 (neither `(ValueError, TypeError)`
nor `socket.error`), which kills the worker thread. -/
inductive HandlerOutcome where
  | done
  | crashed (e : PyExc)
deriving Repr, DecidableEq

/-- Result of one handler iteration: how it ended, the task registry
afterwards, and the trace of observable events. -/
structure HandlerResult where
  outcome : HandlerOutcome
  tasks : Registry
  events : List Event
deriving Repr, DecidableEq

/-- `data.split('\x7br\x7dn')[-1]` of source line 66 (with the CRLF
written literally): the final CRLF-delimited segment. -/
def last_crlf_segment (s : String) : String :=
  (s.splitOn "\r\n").getLastD s

/-- One iteration of `socket_thread_handler` (source lines 39-101) on a
received, utf-8 decoded payload `data`.  `parse` models `json.loads` on
the stripped segment, returning the decoded command object or the decode
failure message (a `ValueError`).

The branches, in source order: empty read closes and continues (lines
49-55); the literal `ping` gets `pong` then close (lines 57-62, 76);
otherwise the last CRLF segment is parsed.  A parse failure is caught by
`except (ValueError, TypeError)` (line 81), but building the reply on
line 84 evaluates `bytes + exception`, which itself raises `TypeError`
inside the handler clause; that `TypeError` is uncaught, so no reply is
sent, the socket is never closed, and the thread dies.  A `KeyError`
escaping `run_command` matches no `except` clause either and likewise
kills the thread with the socket open. -/
def socket_thread_handler_step (parse : String → Except String Command)
    (data : String) (cliargs : CliArgs) (config : Config)
    (socket_tasks : Registry) (taskid : String) (proc : ProcResult) :
    HandlerResult :=
  if data = "" then
    ⟨.done, socket_tasks, [.closeConn]⟩
  else if data = "ping" then
    ⟨.done, socket_tasks, [.sendReply .pong, .closeConn]⟩
  else
    match parse (last_crlf_segment data) with
    | .error _reason => ⟨.crashed .typeError, socket_tasks, []⟩
    | .ok command_dict =>
      match run_command command_dict cliargs config socket_tasks taskid proc with
      | .error e => ⟨.crashed e, socket_tasks, []⟩
      | .ok (tasks2, evs) => ⟨.done, tasks2, evs ++ [.closeConn]⟩

/-- An accepted connection: socket handle plus remote address
(source line 143). -/
structure Conn where
  sock : Nat
  addr : String
deriving Repr, DecidableEq

/-- Acceptor state: the process-global `clientlist` (source line 31) and
the connection queue, seen from the acceptor side (every `q.put`). -/
structure ServerState where
  clientlist : List Conn
  queue : List Conn
deriving Repr, DecidableEq

/-- Observable acceptor actions of source lines 148-151. -/
inductive AcceptEvent where
  | appendClient (c : Conn)
  | enqueue (c : Conn)
deriving Repr, DecidableEq

/-- One pass of the accept loop body (source lines 143-151): append the
`[clientsock, addr]` pair to `clientlist`, then `q.put` it.  No code in
the program ever removes an entry from `clientlist` (`run_command`
declares `global clientlist` on line 171 but never touches it), so the
handler model above does not carry it. -/
def accept_one (st : ServerState) (c : Conn) : ServerState × List AcceptEvent :=
  (⟨st.clientlist ++ [c], st.queue ++ [c]⟩, [.appendClient c, .enqueue c])

/-- The accept loop (source lines 139-151) run over a finite prefix of
the incoming connections. -/
def accept_loop (st : ServerState) (conns : List Conn) :
    ServerState × List AcceptEvent :=
  match conns with
  | [] => (st, [])
  | c :: rest =>
      let r1 := accept_one st c
      let r2 := accept_loop r1.1 rest
      (r2.1, r1.2 ++ r2.2)

/-! Helper observers over event traces. -/

/-- The argument vectors of the spawn events in a trace. -/
def spawnArgvs : List Event → List (List String)
  | [] => []
  | .spawn argv _ :: rest => argv :: spawnArgvs rest
  | _ :: rest => spawnArgvs rest

/-- The task identifiers generated in a trace. -/
def genIds : List Event → List String
  | [] => []
  | .genTaskid t :: rest => t :: genIds rest
  | _ :: rest => genIds rest

/-- The task identifiers of the `taskstart` replies in a trace. -/
def taskstartIds : List Event → List String
  | [] => []
  | .sendReply (.taskstart t) :: rest => t :: taskstartIds rest
  | _ :: rest => taskstartIds rest

/-- The task identifiers of the `taskfinish` replies in a trace. -/
def taskfinishIds : List Event → List String
  | [] => []
  | .sendReply (.taskfinish t _ _) :: rest => t :: taskfinishIds rest
  | _ :: rest => taskfinishIds rest

/-- The event trace of a dispatcher run (empty when an exception escaped,
since a raised exception produces no further observable actions). -/
def run_events (r : Except PyExc (Registry × List Event)) : List Event :=
  match r with
  | .ok (_, evs) => evs
  | .error _ => []

/-- Concrete sample values used by witnesses and counterexamples. -/
def cfg0 : Config := ⟨"diskover-2018", "/usr/bin/python", "/opt/diskover/diskover.py"⟩

def cli0 : CliArgs := ⟨"50", "false"⟩

def proc0 : ProcResult := ⟨7, 0, "1s"⟩

def cmd_crawl0 : Command := ⟨none, none, none, some "crawl", some "/data/dir1", none, none⟩

def cmd_crawl_nopath : Command := ⟨none, none, none, some "crawl", none, none, none⟩

def cmd_noaction : Command := ⟨none, none, none, none, none, none, none⟩

/-- A `json.loads` oracle that always fails, as on any malformed payload
(the string is the decode-failure message of the raised `ValueError`). -/
def json_decode_failure : String → Except String Command :=
  fun _ => .error "Expecting value: line 1 column 1 (char 0)"

/-! Helper lemmas shared by the claim theorems. -/

/-- `spawn_and_wait` computed: the `-a` decision of source line 237
followed by the fixed spawn/record/reply/wait/reply sequence of lines
241-270. -/
theorem spawn_and_wait_eq (cmd : List String) (ab : String)
    (tasks : Registry) (tid : String) (proc : ProcResult) :
    spawn_and_wait cmd ab tasks tid proc
      = .ok (dict_set tasks tid proc.handle,
        [.genTaskid tid,
         .spawn (if ab = "True" ∨ ab = "true" then cmd ++ ["-a"] else cmd) true,
         .insertTask tid, .sendReply (.taskstart tid), .waitChild,
         .sendReply (.taskfinish tid proc.exitcode proc.elapsedtime)]) := rfl

/-- The wrapper changes nothing on success. -/
theorem run_command_of_body_ok (command_dict : Command) (cliargs : CliArgs)
    (config : Config) (socket_tasks : Registry) (taskid : String)
    (proc : ProcResult) (r : Registry × List Event)
    (h : run_command_body command_dict cliargs config socket_tasks taskid proc = .ok r) :
    run_command command_dict cliargs config socket_tasks taskid proc = .ok r := by
  simp [run_command, h]

/-- A `KeyError` passes through the `except ValueError` clause untouched. -/
theorem run_command_of_body_keyError (command_dict : Command) (cliargs : CliArgs)
    (config : Config) (socket_tasks : Registry) (taskid : String)
    (proc : ProcResult) (k : String)
    (h : run_command_body command_dict cliargs config socket_tasks taskid proc
           = .error (.keyError k)) :
    run_command command_dict cliargs config socket_tasks taskid proc
      = .error (.keyError k) := by
  simp [run_command, h]

/-! The claims. -/

/-- Claim C1: for every decoded command with action `crawl` and a `path`
field present, `run_command` spawns exactly one external process whose
argument vector contains that path together with the resolved batch size
and index, generates exactly one task identifier, and that same
identifier appears in both the `taskstart` reply and the subsequent
`taskfinish` reply sent on the connection. -/
theorem crawl_single_spawn_consistent_taskid
    (command_dict : Command) (cliargs : CliArgs) (config : Config)
    (socket_tasks : Registry) (taskid : String) (proc : ProcResult)
    (p : String) (evs : List Event)
    (hact : command_dict.action = some "crawl")
    (hpath : command_dict.path = some p)
    (hevs : evs = run_events
      (run_command command_dict cliargs config socket_tasks taskid proc)) :
    (spawnArgvs evs).length = 1 ∧
    p ∈ (spawnArgvs evs).flatten ∧
    command_dict.batchsize.getD cliargs.batchsize ∈ (spawnArgvs evs).flatten ∧
    command_dict.index.getD config.index ∈ (spawnArgvs evs).flatten ∧
    genIds evs = [taskid] ∧
    taskstartIds evs = [taskid] ∧
    taskfinishIds evs = [taskid] := by
  subst hevs
  have hbody : run_command_body command_dict cliargs config socket_tasks taskid proc
      = spawn_and_wait
          [config.python_path, "-u", config.diskover_path, "-b",
           command_dict.batchsize.getD cliargs.batchsize, "-i",
           command_dict.index.getD config.index, "-d", p, "-q"]
          (command_dict.adaptivebatch.getD cliargs.adaptivebatch)
          socket_tasks taskid proc := by
    simp [run_command_body, hact, hpath]
  rw [run_command_of_body_ok _ _ _ _ _ _ _
    (hbody.trans (spawn_and_wait_eq _ _ _ _ _))]
  simp only [run_events]
  split <;> simp [spawnArgvs, genIds, taskstartIds, taskfinishIds]

/-- Witness for C1 at a concrete crawl command. -/
theorem crawl_single_spawn_consistent_taskid_witness :
    (spawnArgvs (run_events
      (run_command cmd_crawl0 cli0 cfg0 [] "task-1" proc0))).length = 1 ∧
    "/data/dir1" ∈ (spawnArgvs (run_events
      (run_command cmd_crawl0 cli0 cfg0 [] "task-1" proc0))).flatten ∧
    cmd_crawl0.batchsize.getD cli0.batchsize ∈ (spawnArgvs (run_events
      (run_command cmd_crawl0 cli0 cfg0 [] "task-1" proc0))).flatten ∧
    cmd_crawl0.index.getD cfg0.index ∈ (spawnArgvs (run_events
      (run_command cmd_crawl0 cli0 cfg0 [] "task-1" proc0))).flatten ∧
    genIds (run_events (run_command cmd_crawl0 cli0 cfg0 [] "task-1" proc0))
      = ["task-1"] ∧
    taskstartIds (run_events (run_command cmd_crawl0 cli0 cfg0 [] "task-1" proc0))
      = ["task-1"] ∧
    taskfinishIds (run_events (run_command cmd_crawl0 cli0 cfg0 [] "task-1" proc0))
      = ["task-1"] :=
  crawl_single_spawn_consistent_taskid cmd_crawl0 cli0 cfg0 [] "task-1" proc0
    "/data/dir1" _ rfl rfl rfl

/-- Claim C2, counterexample: a crawl command without `path` does not
produce the `value error` reply the claim demands.  `command_dict['path']`
on source line 199 raises `KeyError`, which the `except ValueError` clause
of line 272 does not catch: `run_command` raises instead of replying, and
the worker thread handling the connection dies with the `KeyError`,
having sent nothing. -/
theorem missing_path_keyerror_not_value_error :
    run_command cmd_crawl_nopath cli0 cfg0 [] "task-2c" proc0
      = .error (.keyError "path") ∧
    socket_thread_handler_step (fun _ => .ok cmd_crawl_nopath) "cmd"
        cli0 cfg0 [] "task-2c" proc0
      = ⟨.crashed (.keyError "path"), [], []⟩ ∧
    Event.sendReply Reply.valueError ∉ ([] : List Event) :=
  ⟨rfl, rfl, by simp⟩

/-- Claim C2 as amended: a recognized action missing its required field
(crawl or reindex without `path`, kill without `taskid`) makes
`run_command` raise an uncaught `KeyError` naming that field: no reply is
sent (in particular not `value error`), no process is spawned, no task is
registered, and the per-connection handler — whose `except` clauses do
not cover `KeyError` — dies with the exception, its trace empty and the
registry unchanged. -/
theorem missing_required_field_raises_keyerror
    (command_dict : Command) (cliargs : CliArgs) (config : Config)
    (socket_tasks : Registry) (taskid : String) (proc : ProcResult)
    (parse : String → Except String Command) (data k : String)
    (hk : (command_dict.action = some "crawl" ∧ command_dict.path = none
            ∧ k = "path")
        ∨ (command_dict.action = some "reindex" ∧ command_dict.path = none
            ∧ k = "path")
        ∨ (command_dict.action = some "kill" ∧ command_dict.taskid = none
            ∧ k = "taskid"))
    (hne : data ≠ "")
    (hnp : data ≠ "ping")
    (hparse : parse (last_crlf_segment data) = .ok command_dict) :
    run_command command_dict cliargs config socket_tasks taskid proc
      = .error (.keyError k) ∧
    socket_thread_handler_step parse data cliargs config socket_tasks
        taskid proc
      = ⟨.crashed (.keyError k), socket_tasks, []⟩ := by
  have hrc : run_command command_dict cliargs config socket_tasks taskid proc
      = .error (.keyError k) := by
    rcases hk with ⟨hact, hpath, hkk⟩ | ⟨hact, hpath, hkk⟩ | ⟨hact, htid, hkk⟩
        <;> subst hkk
    · exact run_command_of_body_keyError _ _ _ _ _ _ _
        (by simp [run_command_body, hact, hpath])
    · exact run_command_of_body_keyError _ _ _ _ _ _ _
        (by simp [run_command_body, hact, hpath])
    · exact run_command_of_body_keyError _ _ _ _ _ _ _
        (by simp [run_command_body, hact, htid])
  refine ⟨hrc, ?_⟩
  simp [socket_thread_handler_step, hne, hnp, hparse, hrc]

/-- Witness for the amended C2: a crawl command without `path`, arriving
on a connection with a non-empty registry. -/
theorem missing_required_field_raises_keyerror_witness :
    run_command cmd_crawl_nopath cli0 cfg0 [("old-task", 3)] "task-2w" proc0
      = .error (.keyError "path") ∧
    socket_thread_handler_step (fun _ => .ok cmd_crawl_nopath) "cmd"
        cli0 cfg0 [("old-task", 3)] "task-2w" proc0
      = ⟨.crashed (.keyError "path"), [("old-task", 3)], []⟩ :=
  missing_required_field_raises_keyerror cmd_crawl_nopath cli0 cfg0
    [("old-task", 3)] "task-2w" proc0 (fun _ => .ok cmd_crawl_nopath)
    "cmd" "path" (Or.inl ⟨rfl, rfl, rfl⟩) (by decide) (by decide) rfl

/-- Claim C3 (code bug): on a payload that is not valid JSON (and not
`ping` or empty) the handler is supposed to send the structured reply
`msg error` with the decode reason.  It reaches the
`except (ValueError, TypeError)` clause (source line 81), but building
the reply on line 84 concatenates a bytes literal with the exception
object itself, which raises `TypeError`; so no reply is ever sent, the
dispatcher is never invoked, nothing is spawned or registered, the
socket is not closed, and the worker thread dies. -/
theorem decode_failure_crashes_instead_of_replying :
    socket_thread_handler_step json_decode_failure "\x7bbad" cli0 cfg0 []
        "task-3" proc0
      = ⟨.crashed .typeError, [], []⟩ :=
  rfl

/-- Claim C4, counterexample: with `action` missing the claim demands the
`unknown action` reply; in the code `command_dict['action']` on source
line 193 raises `KeyError`, which nothing catches: no reply at all is
sent, the registry is unchanged, nothing is spawned, and the worker
thread dies. -/
theorem missing_action_keyerror_not_reply :
    run_command cmd_noaction cli0 cfg0 [] "task-4c" proc0
      = .error (.keyError "action") ∧
    socket_thread_handler_step (fun _ => .ok cmd_noaction) "cmd"
        cli0 cfg0 [] "task-4c" proc0
      = ⟨.crashed (.keyError "action"), [], []⟩ ∧
    Event.sendReply Reply.unknownAction ∉ ([] : List Event) :=
  ⟨rfl, rfl, by simp⟩

/-- Claim C4 as amended: when `action` is present but not one of `crawl`,
`finddupes`, `reindex`, `kill`, the reply is `unknown action`, no process
is spawned and the registry is returned unchanged (source lines 230-234);
when `action` is missing, `run_command` instead raises `KeyError`
`action` — no reply of any kind, no spawn, no registry change, and the
handler thread dies. -/
theorem unknown_action_replies_missing_action_raises
    (command_dict : Command) (cliargs : CliArgs) (config : Config)
    (socket_tasks : Registry) (taskid : String) (proc : ProcResult) :
    (command_dict.action = none →
      run_command command_dict cliargs config socket_tasks taskid proc
        = .error (.keyError "action")) ∧
    (∀ a, command_dict.action = some a →
      a ≠ "crawl" → a ≠ "finddupes" → a ≠ "reindex" → a ≠ "kill" →
      run_command command_dict cliargs config socket_tasks taskid proc
        = .ok (socket_tasks, [.sendReply .unknownAction])) := by
  constructor
  · intro hact
    exact run_command_of_body_keyError _ _ _ _ _ _ _
      (by simp [run_command_body, hact])
  · intro a hact h1 h2 h3 h4
    exact run_command_of_body_ok _ _ _ _ _ _ _
      (by simp [run_command_body, hact, h1, h2, h3, h4])

/-- Witness for the amended C4: the missing-action case and an
unrecognized action string, both concrete. -/
theorem unknown_action_replies_missing_action_raises_witness :
    run_command cmd_noaction cli0 cfg0 [] "task-4w" proc0
      = .error (.keyError "action") ∧
    run_command ⟨none, none, none, some "bogus", none, none, none⟩
        cli0 cfg0 [] "task-4w" proc0
      = .ok ([], [.sendReply .unknownAction]) :=
  ⟨(unknown_action_replies_missing_action_raises cmd_noaction cli0 cfg0 []
      "task-4w" proc0).1 rfl,
   (unknown_action_replies_missing_action_raises
      ⟨none, none, none, some "bogus", none, none, none⟩ cli0 cfg0 []
      "task-4w" proc0).2 "bogus" rfl (by decide) (by decide) (by decide)
      (by decide)⟩

/-- Claim C5 (code bug): the JSON-decode-failure exit path never closes
the connection: the `TypeError` raised on source line 84 kills the thread
before the `clientsock.close()` of line 88 runs, so that path's trace
holds no close event, while the empty-read and ping paths (and every
dispatched command, per the other theorems) close exactly once. -/
theorem decode_failure_path_never_closes :
    (socket_thread_handler_step json_decode_failure "not json" cli0 cfg0 []
        "task-5" proc0).events.count Event.closeConn = 0 ∧
    (socket_thread_handler_step json_decode_failure "not json" cli0 cfg0 []
        "task-5" proc0).outcome = .crashed .typeError ∧
    (socket_thread_handler_step json_decode_failure "" cli0 cfg0 []
        "task-5" proc0).events.count Event.closeConn = 1 ∧
    (socket_thread_handler_step json_decode_failure "ping" cli0 cfg0 []
        "task-5" proc0).events.count Event.closeConn = 1 :=
  ⟨rfl, rfl, rfl, rfl⟩

/-- Claim C6, counterexample: the claim says the adaptive-batch decision
is a case-insensitive comparison with `"true"`, so `"TRUE"` should
append the `-a` flag.  In the code (source line 237) the comparison is
exact equality with `"True"` or `"true"`: a crawl command carrying
`adaptivebatch = "TRUE"` spawns an argument vector without `-a`. -/
theorem adaptivebatch_uppercase_true_omits_flag :
    spawnArgvs (run_events (run_command
      ⟨none, none, some "TRUE", some "crawl", some "/data/dir1", none, none⟩
      cli0 cfg0 [] "task-6" proc0))
      = [["/usr/bin/python", "-u", "/opt/diskover/diskover.py", "-b", "50",
          "-i", "diskover-2018", "-d", "/data/dir1", "-q"]] ∧
    "-a" ∉ ["/usr/bin/python", "-u", "/opt/diskover/diskover.py", "-b", "50",
            "-i", "diskover-2018", "-d", "/data/dir1", "-q"] :=
  ⟨rfl, by decide⟩

/-- Claim C6 as amended: for every spawn-variant command the `-a` flag is
appended exactly when the resolved `adaptivebatch` value is the literal
`"True"` or the literal `"true"` (exact comparison, source line 237); any
other value, including other capitalizations such as `"TRUE"`, leaves the
argument vector without the flag.  The conclusion gives the complete
spawned argument vector for each variant, with `aflag` the appended
suffix. -/
theorem adaptivebatch_flag_requires_exact_literal
    (command_dict : Command) (cliargs : CliArgs) (config : Config)
    (socket_tasks : Registry) (taskid : String) (proc : ProcResult)
    (p ab bs ix : String) (aflag : List String)
    (hab : ab = command_dict.adaptivebatch.getD cliargs.adaptivebatch)
    (hbs : bs = command_dict.batchsize.getD cliargs.batchsize)
    (hix : ix = command_dict.index.getD config.index)
    (haflag : aflag = if ab = "True" ∨ ab = "true" then ["-a"] else []) :
    ((command_dict.action = some "crawl" ∧ command_dict.path = some p) →
      spawnArgvs (run_events
        (run_command command_dict cliargs config socket_tasks taskid proc))
        = [[config.python_path, "-u", config.diskover_path, "-b", bs,
            "-i", ix, "-d", p, "-q"] ++ aflag]) ∧
    (command_dict.action = some "finddupes" →
      spawnArgvs (run_events
        (run_command command_dict cliargs config socket_tasks taskid proc))
        = [[config.python_path, "-u", config.diskover_path, "-b", bs,
            "-i", ix, "--finddupes", "-q"] ++ aflag]) ∧
    ((command_dict.action = some "reindex" ∧ command_dict.path = some p) →
      spawnArgvs (run_events
        (run_command command_dict cliargs config socket_tasks taskid proc))
        = [[config.python_path, "-u", config.diskover_path, "-b", bs,
            "-i", ix, "-d", p,
            (if command_dict.recursive.getD "false" = "true"
             then "-R" else "-r"), "-q"] ++ aflag]) := by
  subst hab hbs hix haflag
  refine ⟨fun hc => ?_, fun hf => ?_, fun hr => ?_⟩
  · obtain ⟨hact, hpath⟩ := hc
    have hbody : run_command_body command_dict cliargs config socket_tasks taskid proc
        = spawn_and_wait
            [config.python_path, "-u", config.diskover_path, "-b",
             command_dict.batchsize.getD cliargs.batchsize, "-i",
             command_dict.index.getD config.index, "-d", p, "-q"]
            (command_dict.adaptivebatch.getD cliargs.adaptivebatch)
            socket_tasks taskid proc := by
      simp [run_command_body, hact, hpath]
    rw [run_command_of_body_ok _ _ _ _ _ _ _
      (hbody.trans (spawn_and_wait_eq _ _ _ _ _))]
    simp only [run_events]
    split <;> simp [spawnArgvs]
  · have hbody : run_command_body command_dict cliargs config socket_tasks taskid proc
        = spawn_and_wait
            [config.python_path, "-u", config.diskover_path, "-b",
             command_dict.batchsize.getD cliargs.batchsize, "-i",
             command_dict.index.getD config.index, "--finddupes", "-q"]
            (command_dict.adaptivebatch.getD cliargs.adaptivebatch)
            socket_tasks taskid proc := by
      simp [run_command_body, hf]
    rw [run_command_of_body_ok _ _ _ _ _ _ _
      (hbody.trans (spawn_and_wait_eq _ _ _ _ _))]
    simp only [run_events]
    split <;> simp [spawnArgvs]
  · obtain ⟨hact, hpath⟩ := hr
    by_cases hrec : command_dict.recursive.getD "false" = "true"
    · have hbody : run_command_body command_dict cliargs config socket_tasks taskid proc
          = spawn_and_wait
              [config.python_path, "-u", config.diskover_path, "-b",
               command_dict.batchsize.getD cliargs.batchsize, "-i",
               command_dict.index.getD config.index, "-d", p, "-R", "-q"]
              (command_dict.adaptivebatch.getD cliargs.adaptivebatch)
              socket_tasks taskid proc := by
        simp [run_command_body, hact, hpath, hrec]
      rw [run_command_of_body_ok _ _ _ _ _ _ _
        (hbody.trans (spawn_and_wait_eq _ _ _ _ _))]
      simp only [run_events]
      rw [if_pos hrec]
      split <;> simp [spawnArgvs]
    · have hbody : run_command_body command_dict cliargs config socket_tasks taskid proc
          = spawn_and_wait
              [config.python_path, "-u", config.diskover_path, "-b",
               command_dict.batchsize.getD cliargs.batchsize, "-i",
               command_dict.index.getD config.index, "-d", p, "-r", "-q"]
              (command_dict.adaptivebatch.getD cliargs.adaptivebatch)
              socket_tasks taskid proc := by
        simp [run_command_body, hact, hpath, hrec]
      rw [run_command_of_body_ok _ _ _ _ _ _ _
        (hbody.trans (spawn_and_wait_eq _ _ _ _ _))]
      simp only [run_events]
      rw [if_neg hrec]
      split <;> simp [spawnArgvs]

/-- Witness for the amended C6 at a concrete crawl command whose
`adaptivebatch` field is the exact literal `"true"`. -/
theorem adaptivebatch_flag_requires_exact_literal_witness :
    ((⟨none, none, some "true", some "crawl", some "/data/dir1", none, none⟩
        : Command).action = some "crawl" ∧
      (⟨none, none, some "true", some "crawl", some "/data/dir1", none, none⟩
        : Command).path = some "/data/dir1" →
      spawnArgvs (run_events (run_command
        ⟨none, none, some "true", some "crawl", some "/data/dir1", none, none⟩
        cli0 cfg0 [] "task-6b" proc0))
        = [["/usr/bin/python", "-u", "/opt/diskover/diskover.py", "-b", "50",
            "-i", "diskover-2018", "-d", "/data/dir1", "-q"] ++ ["-a"]]) ∧
    ((⟨none, none, some "true", some "crawl", some "/data/dir1", none, none⟩
        : Command).action = some "finddupes" →
      spawnArgvs (run_events (run_command
        ⟨none, none, some "true", some "crawl", some "/data/dir1", none, none⟩
        cli0 cfg0 [] "task-6b" proc0))
        = [["/usr/bin/python", "-u", "/opt/diskover/diskover.py", "-b", "50",
            "-i", "diskover-2018", "--finddupes", "-q"] ++ ["-a"]]) ∧
    ((⟨none, none, some "true", some "crawl", some "/data/dir1", none, none⟩
        : Command).action = some "reindex" ∧
      (⟨none, none, some "true", some "crawl", some "/data/dir1", none, none⟩
        : Command).path = some "/data/dir1" →
      spawnArgvs (run_events (run_command
        ⟨none, none, some "true", some "crawl", some "/data/dir1", none, none⟩
        cli0 cfg0 [] "task-6b" proc0))
        = [["/usr/bin/python", "-u", "/opt/diskover/diskover.py", "-b", "50",
            "-i", "diskover-2018", "-d", "/data/dir1",
            (if (⟨none, none, some "true", some "crawl", some "/data/dir1",
                  none, none⟩ : Command).recursive.getD "false" = "true"
             then "-R" else "-r"), "-q"] ++ ["-a"]]) :=
  adaptivebatch_flag_requires_exact_literal
    ⟨none, none, some "true", some "crawl", some "/data/dir1", none, none⟩
    cli0 cfg0 [] "task-6b" proc0 "/data/dir1" "true" "50" "diskover-2018"
    ["-a"] rfl rfl rfl (by simp)

/-- Claim C7: a reindex command with `path` present spawns an argument
vector whose single recursion-flag slot holds `-R` exactly when the
`recursive` field equals the string `"true"`, and `-r` when the field is
absent or holds any other value (source lines 207-219); the conclusion
gives the complete vector, which carries exactly one of the two flags. -/
theorem reindex_recursive_flag_selection
    (command_dict : Command) (cliargs : CliArgs) (config : Config)
    (socket_tasks : Registry) (taskid : String) (proc : ProcResult)
    (p : String)
    (hact : command_dict.action = some "reindex")
    (hpath : command_dict.path = some p) :
    spawnArgvs (run_events
      (run_command command_dict cliargs config socket_tasks taskid proc))
      = [[config.python_path, "-u", config.diskover_path, "-b",
          command_dict.batchsize.getD cliargs.batchsize, "-i",
          command_dict.index.getD config.index, "-d", p,
          (if command_dict.recursive = some "true" then "-R" else "-r"), "-q"]
         ++ (if command_dict.adaptivebatch.getD cliargs.adaptivebatch = "True"
               ∨ command_dict.adaptivebatch.getD cliargs.adaptivebatch = "true"
             then ["-a"] else [])] := by
  have hiff : (command_dict.recursive.getD "false" = "true")
      ↔ (command_dict.recursive = some "true") := by
    cases command_dict.recursive <;> simp
  by_cases hrec : command_dict.recursive.getD "false" = "true"
  · have hbody : run_command_body command_dict cliargs config socket_tasks taskid proc
        = spawn_and_wait
            [config.python_path, "-u", config.diskover_path, "-b",
             command_dict.batchsize.getD cliargs.batchsize, "-i",
             command_dict.index.getD config.index, "-d", p, "-R", "-q"]
            (command_dict.adaptivebatch.getD cliargs.adaptivebatch)
            socket_tasks taskid proc := by
      simp [run_command_body, hact, hpath, hrec]
    rw [run_command_of_body_ok _ _ _ _ _ _ _
      (hbody.trans (spawn_and_wait_eq _ _ _ _ _))]
    simp only [run_events]
    rw [if_pos (hiff.mp hrec)]
    split <;> simp [spawnArgvs]
  · have hbody : run_command_body command_dict cliargs config socket_tasks taskid proc
        = spawn_and_wait
            [config.python_path, "-u", config.diskover_path, "-b",
             command_dict.batchsize.getD cliargs.batchsize, "-i",
             command_dict.index.getD config.index, "-d", p, "-r", "-q"]
            (command_dict.adaptivebatch.getD cliargs.adaptivebatch)
            socket_tasks taskid proc := by
      simp [run_command_body, hact, hpath, hrec]
    rw [run_command_of_body_ok _ _ _ _ _ _ _
      (hbody.trans (spawn_and_wait_eq _ _ _ _ _))]
    simp only [run_events]
    rw [if_neg (fun h => hrec (hiff.mpr h))]
    split <;> simp [spawnArgvs]

/-- Witness for C7 at a concrete reindex command with `recursive`
absent (so the non-recursive `-r` flag is chosen). -/
theorem reindex_recursive_flag_selection_witness :
    spawnArgvs (run_events (run_command
      ⟨none, none, none, some "reindex", some "/data/dir2", none, none⟩
      cli0 cfg0 [] "task-7" proc0))
      = [[cfg0.python_path, "-u", cfg0.diskover_path, "-b",
          (⟨none, none, none, some "reindex", some "/data/dir2", none, none⟩
            : Command).batchsize.getD cli0.batchsize, "-i",
          (⟨none, none, none, some "reindex", some "/data/dir2", none, none⟩
            : Command).index.getD cfg0.index, "-d", "/data/dir2",
          (if (⟨none, none, none, some "reindex", some "/data/dir2", none,
               none⟩ : Command).recursive = some "true" then "-R" else "-r"),
          "-q"]
         ++ (if (⟨none, none, none, some "reindex", some "/data/dir2", none,
                 none⟩ : Command).adaptivebatch.getD cli0.adaptivebatch = "True"
               ∨ (⟨none, none, none, some "reindex", some "/data/dir2", none,
                  none⟩ : Command).adaptivebatch.getD cli0.adaptivebatch = "true"
             then ["-a"] else [])] :=
  reindex_recursive_flag_selection
    ⟨none, none, none, some "reindex", some "/data/dir2", none, none⟩
    cli0 cfg0 [] "task-7" proc0 "/data/dir2" rfl rfl

/-- Claim C8: for every spawn-variant command (crawl, finddupes,
reindex with their required fields) the dispatcher's observable steps
are, in exactly this order: generate the fresh task identifier, spawn
the external process with captured stdout/stderr, insert the
(taskid, handle) pair into the registry, send the `taskstart` reply
carrying that taskid, block on the child, and only then send the
`taskfinish` reply carrying the same taskid, the child's exit code and
the elapsed wall-clock time — so `taskstart` always precedes
`taskfinish` (source lines 241-270). -/
theorem dispatcher_trace_order
    (command_dict : Command) (cliargs : CliArgs) (config : Config)
    (socket_tasks : Registry) (taskid : String) (proc : ProcResult)
    (p : String) (argv : List String)
    (hcase : (command_dict.action = some "crawl" ∧ command_dict.path = some p)
           ∨ command_dict.action = some "finddupes"
           ∨ (command_dict.action = some "reindex" ∧ command_dict.path = some p))
    (hargv : spawnArgvs (run_events
      (run_command command_dict cliargs config socket_tasks taskid proc))
        = [argv]) :
    run_command command_dict cliargs config socket_tasks taskid proc
      = .ok (dict_set socket_tasks taskid proc.handle,
        [.genTaskid taskid, .spawn argv true, .insertTask taskid,
         .sendReply (.taskstart taskid), .waitChild,
         .sendReply (.taskfinish taskid proc.exitcode proc.elapsedtime)]) := by
  have finish : ∀ cmd : List String,
      run_command_body command_dict cliargs config socket_tasks taskid proc
        = spawn_and_wait cmd
            (command_dict.adaptivebatch.getD cliargs.adaptivebatch)
            socket_tasks taskid proc →
      run_command command_dict cliargs config socket_tasks taskid proc
        = .ok (dict_set socket_tasks taskid proc.handle,
          [.genTaskid taskid, .spawn argv true, .insertTask taskid,
           .sendReply (.taskstart taskid), .waitChild,
           .sendReply (.taskfinish taskid proc.exitcode proc.elapsedtime)]) := by
    intro cmd hbody
    have hrc := run_command_of_body_ok _ _ _ _ _ _ _
      (hbody.trans (spawn_and_wait_eq _ _ _ _ _))
    rw [hrc] at hargv
    simp only [run_events, spawnArgvs, List.cons.injEq, and_true] at hargv
    rw [hrc, hargv]
  rcases hcase with ⟨hact, hpath⟩ | hact | ⟨hact, hpath⟩
  · exact finish
      [config.python_path, "-u", config.diskover_path, "-b",
       command_dict.batchsize.getD cliargs.batchsize, "-i",
       command_dict.index.getD config.index, "-d", p, "-q"]
      (by simp [run_command_body, hact, hpath])
  · exact finish
      [config.python_path, "-u", config.diskover_path, "-b",
       command_dict.batchsize.getD cliargs.batchsize, "-i",
       command_dict.index.getD config.index, "--finddupes", "-q"]
      (by simp [run_command_body, hact])
  · by_cases hrec : command_dict.recursive.getD "false" = "true"
    · exact finish
        [config.python_path, "-u", config.diskover_path, "-b",
         command_dict.batchsize.getD cliargs.batchsize, "-i",
         command_dict.index.getD config.index, "-d", p, "-R", "-q"]
        (by simp [run_command_body, hact, hpath, hrec])
    · exact finish
        [config.python_path, "-u", config.diskover_path, "-b",
         command_dict.batchsize.getD cliargs.batchsize, "-i",
         command_dict.index.getD config.index, "-d", p, "-r", "-q"]
        (by simp [run_command_body, hact, hpath, hrec])

/-- Witness for C8 at a concrete crawl command. -/
theorem dispatcher_trace_order_witness :
    run_command cmd_crawl0 cli0 cfg0 [] "task-8" proc0
      = .ok (dict_set [] "task-8" proc0.handle,
        [.genTaskid "task-8",
         .spawn ["/usr/bin/python", "-u", "/opt/diskover/diskover.py", "-b",
                 "50", "-i", "diskover-2018", "-d", "/data/dir1", "-q"] true,
         .insertTask "task-8", .sendReply (.taskstart "task-8"), .waitChild,
         .sendReply (.taskfinish "task-8" proc0.exitcode proc0.elapsedtime)]) :=
  dispatcher_trace_order cmd_crawl0 cli0 cfg0 [] "task-8" proc0 "/data/dir1"
    ["/usr/bin/python", "-u", "/opt/diskover/diskover.py", "-b", "50",
     "-i", "diskover-2018", "-d", "/data/dir1", "-q"]
    (Or.inl ⟨rfl, rfl⟩) rfl

/-- Claim C9: a decoded command with action `kill` and a `taskid` field
present gets the reply `taskkilled` and nothing else: no process is
spawned, no registry entry is read or written, and the task registry
returned is exactly the one passed in (source lines 221-228 send the
acknowledgement and return before any registry access). -/
theorem kill_is_stub_registry_unchanged
    (command_dict : Command) (cliargs : CliArgs) (config : Config)
    (socket_tasks : Registry) (taskid : String) (proc : ProcResult)
    (tid : String)
    (hact : command_dict.action = some "kill")
    (htid : command_dict.taskid = some tid) :
    run_command command_dict cliargs config socket_tasks taskid proc
      = .ok (socket_tasks, [.sendReply .taskkilled]) := by
  simp [run_command, run_command_body, hact, htid]

/-- Witness for C9 at a concrete kill command with a non-empty registry. -/
theorem kill_is_stub_registry_unchanged_witness :
    run_command ⟨none, none, none, some "kill", none, none, some "abc"⟩
        cli0 cfg0 [("old-task", 3)] "task-2" proc0
      = .ok ([("old-task", 3)], [.sendReply .taskkilled]) :=
  kill_is_stub_registry_unchanged
    ⟨none, none, none, some "kill", none, none, some "abc"⟩
    cli0 cfg0 [("old-task", 3)] "task-2" proc0 "abc" rfl rfl

/-- Claim C10: the acceptor appends every accepted `[socket, address]`
pair to the global client list before enqueueing it, and no operation in
the program removes entries from that list, so after `k` accepted
connections the client list holds exactly the `k` accepted connections
appended to whatever it held before — it grows without bound. -/
theorem clientlist_grows_without_bound (conns : List Conn) (l q : List Conn) :
    accept_loop ⟨l, q⟩ conns
      = (⟨l ++ conns, q ++ conns⟩,
         conns.flatMap (fun c => [.appendClient c, .enqueue c])) ∧
    ((accept_loop ⟨[], []⟩ conns).1.clientlist).length = conns.length := by
  constructor
  · induction conns generalizing l q with
    | nil => simp [accept_loop]
    | cons c rest ih => simp [accept_loop, accept_one, ih]
  · have h : ∀ (l q : List Conn),
        accept_loop ⟨l, q⟩ conns
          = (⟨l ++ conns, q ++ conns⟩,
             conns.flatMap (fun c => [.appendClient c, .enqueue c])) := by
      induction conns with
      | nil => intro l q; simp [accept_loop]
      | cons c rest ih => intro l q; simp [accept_loop, accept_one, ih]
    simp [h]

end Diskover
